import Mathlib

/-!
Shallow embedding of the volsurfer core (src/app/src/vol_surface.py,
src/app/src/contracts.py, src/app/src/portfolio.py, src/app/src/chain.py)
and verification of the frozen claims about its specification.

Conventions of the embedding:
* Python floats are modelled as rationals so arithmetic is exact.
* The external Black-Scholes collaborator (py_vollib) is modelled as an
  abstract record of pricing functions (BSModel); the core only forwards
  arguments to it, which is exactly what the claims are about.
* Python exceptions are modelled with Except String.
* The process-wide mutable risk-free rate is modelled as an explicit
  configuration value threaded through the pricing calls.
-/

/-- Piecewise-linear interpolation with boundary clamping, the semantics of
numpy.interp for an increasing knot sequence: a query at or below the first
knot returns the first value, a query above the last knot returns the last
value, and a query between two adjacent knots is interpolated linearly.
The list pairs each knot with its value. -/
def interp (x : ℚ) : List (ℚ × ℚ) → ℚ
  | [] => 0
  | p :: rest =>
    match rest with
    | [] => p.2
    | q :: _ =>
      if x ≤ p.1 then p.2
      else if x ≤ q.1 then p.2 + (q.2 - p.2) * (x - p.1) / (q.1 - p.1)
      else interp x rest

/-- Embeds the Python class VolSurface of src/app/src/vol_surface.py:
an ATM strike together with per-expiry parameter sequences. -/
structure VolSurface where
  atm_strike : ℚ
  dtes : List ℚ
  atm_vols : List ℚ
  skews : List ℚ
  kurtosis : List ℚ
  deriving Repr, DecidableEq

/-- Embeds VolSurface.__init__: the constructor only stores the five inputs
(the Python code converts the sequences with np.array and performs no
validation whatsoever), so it always succeeds.  The Except return type
records the presence or absence of a rejection. -/
def VolSurface.init (atm_strike : ℚ) (dtes atm_vols skews kurtosis : List ℚ) :
    Except String VolSurface :=
  Except.ok { atm_strike := atm_strike, dtes := dtes, atm_vols := atm_vols,
              skews := skews, kurtosis := kurtosis }

/-- Embeds VolSurface.vol: interpolate the three parameters at the given dte
with np.interp over the dtes knots, then return
atm_vol + (m - 1) * skew + (m - 1)^2 * kurt with moneyness m = strike / atm_strike. -/
def VolSurface.vol (s : VolSurface) (strike dte : ℚ) : ℚ :=
  let atm_vol := interp dte (s.dtes.zip s.atm_vols)
  let skew := interp dte (s.dtes.zip s.skews)
  let kurt := interp dte (s.dtes.zip s.kurtosis)
  let m := strike / s.atm_strike
  atm_vol + (m - 1) * skew + (m - 1) ^ 2 * kurt

/-- Elementwise linear blend (1 - factor) * old + factor * new of two equal
length parameter sequences, the numpy expression used in VolSurface.evolve. -/
def blend (factor : ℚ) (old nw : List ℚ) : List ℚ :=
  List.zipWith (fun o n => (1 - factor) * o + factor * n) old nw

/-- Embeds VolSurface.evolve: for step in range(timesteps), the interpolation
factor is step / (timesteps - 1) when timesteps > 1 and 1.0 otherwise, and the
yielded surface carries the anchor's atm_strike and dtes with blended
parameter sequences.  Python's range of a non-positive count is empty, which
Int.toNat reproduces. -/
def VolSurface.evolve (s : VolSurface) (timesteps : Int)
    (new_atm_vols new_skews new_kurtosis : List ℚ) : List VolSurface :=
  (List.range timesteps.toNat).map (fun (step : Nat) =>
    let factor : ℚ := if 1 < timesteps then (step : ℚ) / ((timesteps : ℚ) - 1) else 1
    { atm_strike := s.atm_strike
      dtes := s.dtes
      atm_vols := blend factor s.atm_vols new_atm_vols
      skews := blend factor s.skews new_skews
      kurtosis := blend factor s.kurtosis new_kurtosis })

/-- The numpy semantics of the elementwise expression
(1 - factor) * old + factor * new evaluated inside each step of
VolSurface.evolve: one-dimensional arrays of equal length combine
elementwise, a length-one array broadcasts against the other operand, and
any other length mismatch raises ValueError when the expression is
evaluated. -/
def np_blend (factor : ℚ) (old nw : List ℚ) : Except String (List ℚ) :=
  if old.length = nw.length then
    Except.ok (List.zipWith (fun o n => (1 - factor) * o + factor * n) old nw)
  else if old.length = 1 then
    Except.ok (nw.map (fun n => (1 - factor) * old.headD 0 + factor * n))
  else if nw.length = 1 then
    Except.ok (old.map (fun o => (1 - factor) * o + factor * nw.headD 0))
  else
    Except.error "ValueError: operands could not be broadcast together"

/-- Embeds VolSurface.evolve together with the numpy error behaviour of its
per-step parameter blends: each loop step evaluates the three blend
expressions in source order, and a broadcast failure raises at that step of
the generator - the source performs no length check before entering the
loop.  On inputs whose lengths match, this agrees with the plain evolve
above, which models only the already-validated elementwise case. -/
def VolSurface.evolve_checked (s : VolSurface) (timesteps : Int)
    (new_atm_vols new_skews new_kurtosis : List ℚ) :
    Except String (List VolSurface) :=
  (List.range timesteps.toNat).mapM (fun (step : Nat) =>
    let factor : ℚ := if 1 < timesteps then (step : ℚ) / ((timesteps : ℚ) - 1) else 1
    (np_blend factor s.atm_vols new_atm_vols).bind (fun a =>
      (np_blend factor s.skews new_skews).bind (fun sk =>
        (np_blend factor s.kurtosis new_kurtosis).map (fun k =>
          { atm_strike := s.atm_strike, dtes := s.dtes, atm_vols := a,
            skews := sk, kurtosis := k }))))

/-- Embeds create_vol_surface_evolution_video of src/app/src/vol_surface.py.
One frame is rendered per evolved surface; the rendering itself (matplotlib,
imageio) is an external collaborator, so a frame is modelled by its index and
the function returns the number of frames.  The Python code raises ValueError
when fewer than two frames were produced. -/
def create_vol_surface_evolution_video (vol_surface : VolSurface) (timesteps : Int)
    (new_atm_vols new_skews new_kurtosis : List ℚ) : Except String Nat :=
  let frames := (vol_surface.evolve timesteps new_atm_vols new_skews new_kurtosis).length
  if frames < 2 then
    Except.error "Error generated vol surface frames. Less than 2 frames found."
  else
    Except.ok frames

/-- Embeds the Python class Stock of src/app/src/contracts.py. -/
structure Stock where
  pos : Int
  price : ℚ
  deriving Repr, DecidableEq

/-- The external Black-Scholes collaborator (py_vollib): one pricing function
and four Greek functions, each taking flag, spot, strike, time to expiry in
years, risk-free rate and volatility.  The core treats these as opaque pure
functions; both the numerical Greeks used by contracts.py and the analytical
Greeks used by chain.py are instances of this shape. -/
structure BSModel where
  price : String → ℚ → ℚ → ℚ → ℚ → ℚ → ℚ
  delta : String → ℚ → ℚ → ℚ → ℚ → ℚ → ℚ
  gamma : String → ℚ → ℚ → ℚ → ℚ → ℚ → ℚ
  theta : String → ℚ → ℚ → ℚ → ℚ → ℚ → ℚ
  vega : String → ℚ → ℚ → ℚ → ℚ → ℚ → ℚ

/-- A probe collaborator whose every function returns the risk-free-rate
argument it was handed; evaluating the core against it reveals which rate
source each pricing call consumes. -/
def rateProbe : BSModel where
  price := fun _ _ _ _ r _ => r
  delta := fun _ _ _ _ r _ => r
  gamma := fun _ _ _ _ r _ => r
  theta := fun _ _ _ _ r _ => r
  vega := fun _ _ _ _ r _ => r

/-- A probe collaborator whose every function returns the spot argument it was
handed; evaluating the core against it reveals which spot each call uses. -/
def spotProbe : BSModel where
  price := fun _ s _ _ _ _ => s
  delta := fun _ s _ _ _ _ => s
  gamma := fun _ s _ _ _ _ => s
  theta := fun _ s _ _ _ _ => s
  vega := fun _ s _ _ _ _ => s

/-- The process-wide mutable configuration of src/app/src/contracts.py,
holding the module-level variable of the risk-free rate. -/
structure GlobalConfig where
  risk_free_rate : ℚ
  deriving Repr, DecidableEq

/-- The state of the module global at import time: 0.04 in the source. -/
def initialConfig : GlobalConfig := { risk_free_rate := 4 / 100 }

/-- Embeds set_risk_free_rate of src/app/src/contracts.py as a state
transformer on the global configuration. -/
def set_risk_free_rate (r : ℚ) (_cfg : GlobalConfig) : GlobalConfig :=
  { risk_free_rate := r }

/-- Embeds the Python class Option of src/app/src/contracts.py (primed to
avoid the clash with the Lean builtin of the same name).  The underlying
field is annotated Stock in Python but is dereferenced dynamically, so None
is representable; it is modelled with Option Stock. -/
structure Option' where
  flag : String
  strike : ℚ
  dte : ℚ
  t : ℚ
  pos : Int
  underlying : Option Stock
  deriving Repr, DecidableEq

/-- Embeds Option.__init__: lowercases the flag and derives t = dte / 365. -/
def Option'.init (flag : String) (strike dte : ℚ) (pos : Int)
    (underlying : Option Stock) : Option' :=
  { flag := flag.toLower, strike := strike, dte := dte, t := dte / 365,
    pos := pos, underlying := underlying }

/-- Embeds Option.price: resolve the volatility from the surface, then return
pos * black_scholes(flag, underlying.price, strike, t, risk-free rate, vol).
The Python code dereferences self.underlying unconditionally, so a missing
underlying raises AttributeError. -/
def Option'.price (o : Option') (bs : BSModel) (cfg : GlobalConfig)
    (vol_surface : VolSurface) : Except String ℚ :=
  let vol := vol_surface.vol o.strike o.dte
  match o.underlying with
  | none => Except.error "AttributeError: NoneType object has no attribute price"
  | some stk =>
    Except.ok ((o.pos : ℚ) * bs.price o.flag stk.price o.strike o.t cfg.risk_free_rate vol)

/-- The four option Greeks, the dictionary returned by Option.greeks. -/
structure Greeks where
  delta : ℚ
  gamma : ℚ
  theta : ℚ
  vega : ℚ
  deriving Repr, DecidableEq

/-- Dictionary lookup on a Greeks record by the Python dict key; an unknown
key raises KeyError, as subscripting the Python dict would. -/
def Greeks.lookup (g : Greeks) : String → Except String ℚ
  | "delta" => Except.ok g.delta
  | "gamma" => Except.ok g.gamma
  | "theta" => Except.ok g.theta
  | "vega" => Except.ok g.vega
  | k => Except.error ("KeyError: " ++ k)

/-- Elementwise scaling of a Greeks record by a position size, the
per-option contribution pos * greeks described by the spec. -/
def Greeks.scale (c : ℚ) (g : Greeks) : Greeks :=
  { delta := c * g.delta, gamma := c * g.gamma, theta := c * g.theta,
    vega := c * g.vega }

/-- Elementwise sum of two Greeks records. -/
def Greeks.add (g1 g2 : Greeks) : Greeks :=
  { delta := g1.delta + g2.delta, gamma := g1.gamma + g2.gamma,
    theta := g1.theta + g2.theta, vega := g1.vega + g2.vega }

/-- Embeds Option.greeks: resolve the volatility, take the spot from the
underlying when it is truthy and fall back to 100.0 otherwise (the source
line S = self.underlying.price if self.underlying else 100.0; a Stock
instance is always truthy, None is falsy), and delegate each Greek to the
collaborator.  No position scaling is applied here. -/
def Option'.greeks (o : Option') (bs : BSModel) (cfg : GlobalConfig)
    (vol_surface : VolSurface) : Greeks :=
  let vol := vol_surface.vol o.strike o.dte
  let s : ℚ :=
    match o.underlying with
    | some stk => stk.price
    | none => 100
  { delta := bs.delta o.flag s o.strike o.t cfg.risk_free_rate vol
    gamma := bs.gamma o.flag s o.strike o.t cfg.risk_free_rate vol
    theta := bs.theta o.flag s o.strike o.t cfg.risk_free_rate vol
    vega := bs.vega o.flag s o.strike o.t cfg.risk_free_rate vol }

/-- Embeds the Python class Portfolio of src/app/src/portfolio.py. -/
structure Portfolio where
  options : List Option'
  stock : Stock
  value : ℚ
  deriving Repr, DecidableEq

/-- Embeds Portfolio.__init__: stores the options and the stock and sets the
value field to 0. -/
def Portfolio.init (options : List Option') (stock : Stock) : Portfolio :=
  { options := options, stock := stock, value := 0 }

/-- Embeds Portfolio.portfolio_greeks: fold over the options, adding
option.pos * greek to each of the four running totals, which all start at 0. -/
def Portfolio.portfolio_greeks (p : Portfolio) (bs : BSModel) (cfg : GlobalConfig)
    (vol_surface : VolSurface) : Greeks :=
  p.options.foldl
    (fun acc o =>
      let g := o.greeks bs cfg vol_surface
      { delta := acc.delta + (o.pos : ℚ) * g.delta
        gamma := acc.gamma + (o.pos : ℚ) * g.gamma
        theta := acc.theta + (o.pos : ℚ) * g.theta
        vega := acc.vega + (o.pos : ℚ) * g.vega })
    { delta := 0, gamma := 0, theta := 0, vega := 0 }

/-- Embeds Portfolio.portfolio_value: sum of Option.price over the options,
left to right from 0, propagating the first raised exception. -/
def Portfolio.portfolio_value (p : Portfolio) (bs : BSModel) (cfg : GlobalConfig)
    (vol_surface : VolSurface) : Except String ℚ :=
  p.options.foldlM (fun acc o => (o.price bs cfg vol_surface).map (fun v => acc + v)) 0

/-- Embeds Portfolio.evolve_portfolio.  dt = elapsed_time / timesteps raises
ZeroDivisionError when timesteps is 0 (surfacing at the first next() of the
generator, before any pair is yielded).  Otherwise the full evolved-surface
list is materialised and, for each enumerated step, every original option is
rebuilt through Option.__init__ with
new dte = max(original dte - dt * (step + 1), 0); original_dtes[i] in the
source is read from self.options before any reconstruction, so it equals the
i-th option's dte field used here.  The generator is modelled by the list of
its yields. -/
def Portfolio.evolve_portfolio (p : Portfolio) (vol_surface : VolSurface)
    (new_atm_vols new_skews new_kurtosis : List ℚ) (elapsed_time : ℚ)
    (timesteps : Int) : Except String (List (Portfolio × VolSurface)) :=
  if timesteps = 0 then Except.error "ZeroDivisionError: division by zero"
  else
    let dt := elapsed_time / (timesteps : ℚ)
    let evolved_surfaces := vol_surface.evolve timesteps new_atm_vols new_skews new_kurtosis
    Except.ok (evolved_surfaces.enum.map (fun se =>
      let new_options := p.options.map (fun opt =>
        Option'.init opt.flag opt.strike (max (opt.dte - dt * ((se.1 : ℚ) + 1)) 0)
          opt.pos opt.underlying)
      (Portfolio.init new_options p.stock, se.2)))

/-- Sets the shared underlying price, the effect of the source line
self.stock.price = S in the grid engine.  Python mutates the single Stock
object shared (per the Portfolio invariant of the spec) by the portfolio and
all of its options; the value embedding realises that one mutation by
updating the stock together with every option's underlying. -/
def Portfolio.set_price (p : Portfolio) (s : ℚ) : Portfolio :=
  { options := p.options.map (fun o =>
      { o with underlying := o.underlying.map (fun u => { u with price := s }) })
    stock := { p.stock with price := s }
    value := p.value }

/-- One row of the PnL grid of Portfolio.plot_pnl_evolution_3d: run
evolve_portfolio and record, per step, the evolved portfolio's value on the
evolved surface minus the initial value. -/
def Portfolio.pnl_row (p : Portfolio) (bs : BSModel) (cfg : GlobalConfig)
    (vol_surface : VolSurface) (new_atm_vols new_skews new_kurtosis : List ℚ)
    (elapsed_time : ℚ) (timesteps : Int) (init_value : ℚ) :
    Except String (List ℚ) :=
  (p.evolve_portfolio vol_surface new_atm_vols new_skews new_kurtosis
      elapsed_time timesteps).bind
    (fun pairs => pairs.mapM (fun pr =>
      (pr.1.portfolio_value bs cfg pr.2).map (fun v => v - init_value)))

/-- One row of the Greek grid of Portfolio.plot_greek_evolution_3d: run
evolve_portfolio and record, per step, the requested key of the evolved
portfolio's aggregated Greeks. -/
def Portfolio.greek_row (p : Portfolio) (bs : BSModel) (cfg : GlobalConfig)
    (vol_surface : VolSurface) (new_atm_vols new_skews new_kurtosis : List ℚ)
    (elapsed_time : ℚ) (timesteps : Int) (greek : String) :
    Except String (List ℚ) :=
  (p.evolve_portfolio vol_surface new_atm_vols new_skews new_kurtosis
      elapsed_time timesteps).bind
    (fun pairs => pairs.mapM (fun pr =>
      (pr.1.portfolio_greeks bs cfg pr.2).lookup greek))

/-- The price-range loop shared by both 3D grid engines: for each price S in
order, set the shared stock price to S, compute the row, and on an exception
propagate it immediately - the source has no try/finally, so the mutated
price is left in place on the error path.  Returns the portfolio as left by
the loop (carrying the final stock price) with the grid or the exception. -/
def run_price_rows (row : Portfolio → Except String (List ℚ)) :
    List ℚ → Portfolio → Portfolio × Except String (List (List ℚ))
  | [], p => (p, Except.ok [])
  | s :: rest, p =>
    let p1 := p.set_price s
    match row p1 with
    | Except.error e => (p1, Except.error e)
    | Except.ok vals =>
      match run_price_rows row rest p1 with
      | (p2, Except.error e) => (p2, Except.error e)
      | (p2, Except.ok rows) => (p2, Except.ok (vals :: rows))

/-- Embeds the numeric core of Portfolio.plot_pnl_evolution_3d: record the
original stock price, compute the initial portfolio value on the original
surface at the original price, fill the grid row by row while mutating the
shared price, and reset the price only after the loop completes normally
(the reset line is not in a finally block, so it is skipped when an
exception propagates).  Plot construction is an external collaborator; the
function returns the final portfolio state and the numeric grid. -/
def Portfolio.plot_pnl_evolution_3d (p : Portfolio) (bs : BSModel)
    (cfg : GlobalConfig) (vol_surface : VolSurface)
    (new_atm_vols new_skews new_kurtosis : List ℚ) (elapsed_time : ℚ)
    (timesteps : Int) (s_range : List ℚ) :
    Portfolio × Except String (List (List ℚ)) :=
  let original_price := p.stock.price
  match p.portfolio_value bs cfg vol_surface with
  | Except.error e => (p, Except.error e)
  | Except.ok init_value =>
    match run_price_rows
        (fun q => q.pnl_row bs cfg vol_surface new_atm_vols new_skews
          new_kurtosis elapsed_time timesteps init_value) s_range p with
    | (pe, Except.error e) => (pe, Except.error e)
    | (pf, Except.ok rows) => (pf.set_price original_price, Except.ok rows)

/-- Embeds the numeric core of Portfolio.plot_greek_evolution_3d: same
row loop as the PnL version but recording one named Greek per step, with the
same non-scoped price reset after the loop. -/
def Portfolio.plot_greek_evolution_3d (p : Portfolio) (bs : BSModel)
    (cfg : GlobalConfig) (vol_surface : VolSurface)
    (new_atm_vols new_skews new_kurtosis : List ℚ) (elapsed_time : ℚ)
    (timesteps : Int) (s_range : List ℚ) (greek : String) :
    Portfolio × Except String (List (List ℚ)) :=
  let original_price := p.stock.price
  match run_price_rows
      (fun q => q.greek_row bs cfg vol_surface new_atm_vols new_skews
        new_kurtosis elapsed_time timesteps greek) s_range p with
  | (pe, Except.error e) => (pe, Except.error e)
  | (pf, Except.ok rows) => (pf.set_price original_price, Except.ok rows)

/-- Python's builtin round: round half to even, returning an integer. -/
def pyRound (q : ℚ) : Int :=
  let f := Int.floor q
  let frac := q - f
  if frac < 1 / 2 then f
  else if 1 / 2 < frac then f + 1
  else if f % 2 = 0 then f else f + 1

/-- The semantics of np.arange(a, b, w) for a positive step: the values
a, a + w, a + 2w, ... strictly below b, of length ceil((b - a) / w). -/
def arange (a b w : ℚ) : List ℚ :=
  (List.range (Int.ceil ((b - a) / w)).toNat).map (fun (i : Nat) => a + (i : ℚ) * w)

/-- The minimum of a list, the semantics of np.min on a nonempty array
(np.min raises on an empty array; the claims only use nonempty ranges). -/
def listMin : List ℚ → ℚ
  | [] => 0
  | x :: xs => xs.foldl min x

/-- The maximum of a list, the semantics of np.max on a nonempty array. -/
def listMax : List ℚ → ℚ
  | [] => 0
  | x :: xs => xs.foldl max x

/-- One row of the option-chain dataframe built by Chain.__init__ in
src/app/src/chain.py: the cross-product key columns plus the derived
columns, with every pricing and Greek call taking the row's own r column. -/
structure ChainRow where
  dte : ℚ
  strike : ℚ
  flag : String
  underlying : ℚ
  t : ℚ
  iv : ℚ
  r : ℚ
  price : ℚ
  delta : ℚ
  gamma : ℚ
  theta : ℚ
  vega : ℚ
  deriving Repr, DecidableEq

/-- The default of the r keyword argument of Chain.__init__: 0.01. -/
def Chain.default_r : ℚ := 1 / 100

/-- Builds one chain row: t = dte / 365, IV from the surface, and price and
Greeks delegated to the collaborator with the chain's own rate r. -/
def Chain.row (bs : BSModel) (vol_surface : VolSurface) (underlying_price : ℚ)
    (r : ℚ) (dte strike : ℚ) (flag : String) : ChainRow :=
  let t := dte / 365
  let iv := vol_surface.vol strike dte
  { dte := dte, strike := strike, flag := flag, underlying := underlying_price,
    t := t, iv := iv, r := r
    price := bs.price flag underlying_price strike t r iv
    delta := bs.delta flag underlying_price strike t r iv
    gamma := bs.gamma flag underlying_price strike t r iv
    theta := bs.theta flag underlying_price strike t r iv
    vega := bs.vega flag underlying_price strike t r iv }

/-- Embeds Chain.__init__: strikes are np.arange between the rounded ends of
the price range in strike_width steps, the rows are the itertools.product of
dtes x strikes x [c, p] in that nesting order, and every row is priced with
the constructor's r parameter - not with the process-wide risk-free rate of
contracts.py. -/
def Chain.init (bs : BSModel) (dtes : List ℚ) (vol_surface : VolSurface)
    (underlying_price : ℚ) (s_range : List ℚ) (strike_width : ℚ) (r : ℚ) :
    List ChainRow :=
  let strikes := arange ((pyRound (listMin s_range / strike_width) : ℚ) * strike_width)
    ((pyRound (listMax s_range / strike_width) : ℚ) * strike_width) strike_width
  dtes.flatMap (fun dte => strikes.flatMap (fun strike =>
    [Chain.row bs vol_surface underlying_price r dte strike "c",
     Chain.row bs vol_surface underlying_price r dte strike "p"]))

/-- A concrete stock used to exercise the claims on explicit inputs. -/
def testStock : Stock := { pos := 0, price := 100 }

/-- A concrete surface with two term knots, the end-to-end scenario surface
of the spec. -/
def testSurface : VolSurface :=
  { atm_strike := 100, dtes := [7, 14], atm_vols := [1/5, 11/50],
    skews := [-1/10, -1/10], kurtosis := [1/20, 1/20] }

/-- A concrete long call on the test stock with ten days to expiry. -/
def testOption : Option' := Option'.init "c" 100 10 1 (some testStock)

/-- A concrete one-option portfolio on the test stock. -/
def testPortfolio : Portfolio := Portfolio.init [testOption] testStock

/-- A concrete portfolio holding no options, on the test stock. -/
def emptyPortfolio : Portfolio := Portfolio.init [] testStock

/-- A concrete option whose underlying reference is missing (None). -/
def testOptionNone : Option' := Option'.init "p" 100 10 1 none

/-- Helper: an element selected by getLast? is a member of the list. -/
theorem mem_of_getLast? {α : Type} :
    ∀ (l : List α) (a : α), l.getLast? = some a → a ∈ l
  | [], a, h => by simp at h
  | [x], a, h => by
    simp at h
    simp [h]
  | x :: y :: ys, a, h => by
    rw [List.getLast?_cons_cons] at h
    exact List.mem_cons_of_mem x (mem_of_getLast? (y :: ys) a h)

/-- Helper: in a strictly increasing list every element is at most the last. -/
theorem pairwise_le_getLast? :
    ∀ (l : List ℚ), l.Pairwise (· < ·) → ∀ (dl : ℚ), l.getLast? = some dl →
      ∀ a ∈ l, a ≤ dl
  | [], _, dl, h, a, ha => by simp at ha
  | [x], _, dl, h, a, ha => by
    simp at h ha
    rw [ha, ← h]
  | x :: y :: ys, hs, dl, h, a, ha => by
    rw [List.getLast?_cons_cons] at h
    have h1 := (List.pairwise_cons.mp hs).1
    have hs' := (List.pairwise_cons.mp hs).2
    rcases List.mem_cons.mp ha with rfl | ha'
    · exact le_of_lt (h1 dl (mem_of_getLast? (y :: ys) dl h))
    · exact pairwise_le_getLast? (y :: ys) hs' dl h a ha'

/-- Helper: interp clamps at the head knot: a query at or below the first
knot returns the first value. -/
theorem interp_le_head (x : ℚ) (p : ℚ × ℚ) (l : List (ℚ × ℚ)) (h : x ≤ p.1) :
    interp x (p :: l) = p.2 := by
  cases l with
  | nil => rfl
  | cons q rest =>
    show (if x ≤ p.1 then p.2
      else if x ≤ q.1 then p.2 + (q.2 - p.2) * (x - p.1) / (q.1 - p.1)
      else interp x (q :: rest)) = p.2
    rw [if_pos h]

/-- Helper: interp clamps at the last knot: when the knots are strictly
increasing and the query is at or above every knot, the last value is
returned. -/
theorem interp_ge_getLast (x : ℚ) :
    ∀ (l : List (ℚ × ℚ)) (q0 : ℚ × ℚ), l.getLast? = some q0 →
      l.Pairwise (fun a b => a.1 < b.1) → (∀ q ∈ l, q.1 ≤ x) →
      interp x l = q0.2
  | [], q0, h, _, _ => by simp at h
  | [p], q0, h, _, _ => by
    simp at h
    exact h ▸ rfl
  | p :: q :: rest, q0, h, hs, hx => by
    rw [List.getLast?_cons_cons] at h
    have hpq : p.1 < q.1 := (List.pairwise_cons.mp hs).1 q (List.mem_cons_self q rest)
    have hs' : (q :: rest).Pairwise (fun a b => a.1 < b.1) := (List.pairwise_cons.mp hs).2
    have hqx : q.1 ≤ x := hx q (List.mem_cons_of_mem p (List.mem_cons_self q rest))
    have hnle : ¬ x ≤ p.1 := fun hle => absurd hpq (not_lt.mpr (le_trans hqx hle))
    show (if x ≤ p.1 then p.2
      else if x ≤ q.1 then p.2 + (q.2 - p.2) * (x - p.1) / (q.1 - p.1)
      else interp x (q :: rest)) = q0.2
    rw [if_neg hnle]
    by_cases hxq : x ≤ q.1
    · have hxeq : x = q.1 := le_antisymm hxq hqx
      cases rest with
      | nil =>
        simp at h
        rw [if_pos hxq, hxeq, ← h]
        have hne : q.1 - p.1 ≠ 0 := sub_ne_zero.mpr (ne_of_gt hpq)
        rw [mul_div_assoc, div_self hne, mul_one]
        ring
      | cons r rest' =>
        exfalso
        rw [List.getLast?_cons_cons] at h
        have hmem : q0 ∈ r :: rest' := mem_of_getLast? (r :: rest') q0 h
        have hlt : q.1 < q0.1 := (List.pairwise_cons.mp hs').1 q0 hmem
        have hle : q0.1 ≤ x := hx q0 (by simp [hmem])
        rw [hxeq] at hle
        exact absurd hlt (not_lt.mpr hle)
    · rw [if_neg hxq]
      exact interp_ge_getLast x (q :: rest) q0 h hs'
        (fun r hr => hx r (List.mem_cons_of_mem p hr))

/-- Helper: a query at or below the head knot of a zipped parameter list
evaluates the same as a query exactly at the head knot. -/
theorem interp_zip_le_head (x d0 : ℚ) (ds vals : List ℚ) (h : x ≤ d0) :
    interp x ((d0 :: ds).zip vals) = interp d0 ((d0 :: ds).zip vals) := by
  cases vals with
  | nil => rfl
  | cons v vs =>
    rw [List.zip_cons_cons, interp_le_head x _ _ h, interp_le_head d0 _ _ le_rfl]

/-- Helper: a query at or above the last of a strictly increasing knot list
evaluates a zipped parameter list the same as a query exactly at the last
knot. -/
theorem interp_zip_ge_getLast (x dl : ℚ) (dtes vals : List ℚ)
    (hlast : dtes.getLast? = some dl) (hs : dtes.Pairwise (· < ·))
    (hlen : vals.length = dtes.length) (hge : dl ≤ x) :
    interp x (dtes.zip vals) = interp dl (dtes.zip vals) := by
  have hdne : dtes ≠ [] := by
    intro hnil
    rw [hnil] at hlast
    simp at hlast
  have hzl : (dtes.zip vals).length = dtes.length := by
    rw [List.length_zip, hlen, min_self]
  have hzne : dtes.zip vals ≠ [] := by
    intro hz
    rw [hz] at hzl
    exact hdne (List.eq_nil_of_length_eq_zero hzl.symm)
  obtain ⟨q0, hq0⟩ : ∃ q0, (dtes.zip vals).getLast? = some q0 := by
    cases hq : (dtes.zip vals).getLast? with
    | none => exact absurd (List.getLast?_eq_none_iff.mp hq) hzne
    | some q0 => exact ⟨q0, rfl⟩
  have hps : (dtes.zip vals).Pairwise (fun a b => a.1 < b.1) := by
    have hmap : (dtes.zip vals).map Prod.fst = dtes :=
      List.map_fst_zip dtes vals (le_of_eq hlen.symm)
    have := hmap ▸ hs
    exact (List.pairwise_map).mp this
  have hfst : ∀ q ∈ dtes.zip vals, q.1 ≤ dl := by
    intro q hq
    obtain ⟨a, b⟩ := q
    exact pairwise_le_getLast? dtes hs dl hlast a (List.of_mem_zip hq).1
  rw [interp_ge_getLast x (dtes.zip vals) q0 hq0 hps
        (fun q hq => le_trans (hfst q hq) hge),
      interp_ge_getLast dl (dtes.zip vals) q0 hq0 hps hfst]

/-- C3: vol(strike, dte) is the quadratic-in-moneyness form over parameters
interpolated piecewise-linearly at dte with boundary clamping: querying at or
below the first knot agrees with querying at the first knot, querying at or
above the last knot of a strictly increasing knot sequence agrees with
querying at the last knot, and on the end-to-end scenario surface with
dtes = [7, 14], atm_vols = [0.2, 0.22], skews = [-0.1, -0.1],
kurtosis = [0.05, 0.05], atm_strike = 100 we get vol(100, 7) = 0.2 and
vol(110, 7) = 0.1905. -/
theorem C3_vol_clamping_and_scenario :
    (∀ (s : VolSurface) (strike dte d0 : ℚ), s.dtes.head? = some d0 → dte ≤ d0 →
      s.vol strike dte = s.vol strike d0) ∧
    (∀ (s : VolSurface) (strike dte dl : ℚ), s.dtes.getLast? = some dl →
      s.dtes.Pairwise (· < ·) →
      s.atm_vols.length = s.dtes.length → s.skews.length = s.dtes.length →
      s.kurtosis.length = s.dtes.length → dl ≤ dte →
      s.vol strike dte = s.vol strike dl) ∧
    testSurface.vol 100 7 = 1/5 ∧ testSurface.vol 110 7 = 1905/10000 := by
  refine ⟨?_, ?_, by norm_num [VolSurface.vol, testSurface, interp],
    by norm_num [VolSurface.vol, testSurface, interp]⟩
  · intro s strike dte d0 hhead hle
    cases hd : s.dtes with
    | nil => rw [hd] at hhead; simp at hhead
    | cons d ds =>
      rw [hd] at hhead
      simp at hhead
      rw [← hhead] at hle ⊢
      simp only [VolSurface.vol, hd]
      rw [interp_zip_le_head dte d ds s.atm_vols hle,
          interp_zip_le_head dte d ds s.skews hle,
          interp_zip_le_head dte d ds s.kurtosis hle]
  · intro s strike dte dl hlast hs h1 h2 h3 hge
    simp only [VolSurface.vol]
    rw [interp_zip_ge_getLast dte dl s.dtes s.atm_vols hlast hs h1 hge,
        interp_zip_ge_getLast dte dl s.dtes s.skews hlast hs h2 hge,
        interp_zip_ge_getLast dte dl s.dtes s.kurtosis hlast hs h3 hge]

/-- Witness for C3 at the scenario surface: a query below the first knot
agrees with the first knot and a query above the last knot agrees with the
last knot. -/
theorem C3_vol_clamping_and_scenario_witness :
    testSurface.vol 100 3 = testSurface.vol 100 7 ∧
    testSurface.vol 110 20 = testSurface.vol 110 14 :=
  ⟨C3_vol_clamping_and_scenario.1 testSurface 100 3 7 rfl (by norm_num),
   C3_vol_clamping_and_scenario.2.1 testSurface 110 20 14 rfl (by decide) rfl rfl rfl
     (by norm_num)⟩

/-- C5 counterexample: evolve_portfolio called with timesteps = -1 (a value
below 1) is not rejected and signals no failure: the generator body runs,
computes dt without error, and yields zero pairs, returning silently. -/
theorem C5_counterexample_negative_timesteps_not_rejected :
    testPortfolio.evolve_portfolio testSurface [3/10, 2/5] [-1/10, -1/10]
      [1/20, 1/20] 10 (-1) = Except.ok [] ∧ (-1 : Int) < 1 :=
  ⟨rfl, by decide⟩

/-- C5 amended: timesteps = 0 raises ZeroDivisionError when dt is computed,
before the evolution loop is entered and before any pair is yielded; a
negative timesteps is not rejected at all - the call succeeds and yields
zero pairs, because the evolved-surface sequence is empty. -/
theorem C5_amended_timesteps_validation (p : Portfolio) (vs : VolSurface)
    (navs nsk nku : List ℚ) (elapsed : ℚ) :
    p.evolve_portfolio vs navs nsk nku elapsed 0 =
      Except.error "ZeroDivisionError: division by zero" ∧
    (∀ timesteps : Int, timesteps < 0 →
      p.evolve_portfolio vs navs nsk nku elapsed timesteps = Except.ok []) := by
  constructor
  · rfl
  · intro timesteps ht
    unfold Portfolio.evolve_portfolio
    rw [if_neg (by omega)]
    unfold VolSurface.evolve
    rw [Int.toNat_of_nonpos (le_of_lt ht)]
    rfl

/-- Witness for C5 amended at a concrete portfolio: timesteps zero raises and
timesteps minus one yields the empty sequence. -/
theorem C5_amended_timesteps_validation_witness :
    testPortfolio.evolve_portfolio testSurface [3/10, 2/5] [-1/10, -1/10]
      [1/20, 1/20] 10 0 = Except.error "ZeroDivisionError: division by zero" ∧
    testPortfolio.evolve_portfolio testSurface [3/10, 2/5] [-1/10, -1/10]
      [1/20, 1/20] 10 (-2) = Except.ok [] :=
  ⟨(C5_amended_timesteps_validation testPortfolio testSurface [3/10, 2/5]
      [-1/10, -1/10] [1/20, 1/20] 10).1,
   (C5_amended_timesteps_validation testPortfolio testSurface [3/10, 2/5]
      [-1/10, -1/10] [1/20, 1/20] 10).2 (-2) (by decide)⟩

/-- C8 counterexample: constructing a VolSurface whose atm_vols has one entry
while dtes has two is not rejected - the constructor stores the mismatched
sequences and succeeds, so the mismatch is not rejected before computation. -/
theorem C8_counterexample_mismatched_construction_accepted :
    VolSurface.init 100 [7, 14] [1/5] [0] [0] =
      Except.ok { atm_strike := 100, dtes := [7, 14], atm_vols := [1/5],
                  skews := [0], kurtosis := [0] } ∧
    [(7 : ℚ), 14].length ≠ [(1 : ℚ)/5].length :=
  ⟨rfl, by decide⟩

/-- Helper: mapping a monadic function that succeeds everywhere over a list
succeeds with the pointwise results. -/
theorem mapM_ok_of_forall_ok {α β : Type} (f : α → Except String β) (g : α → β)
    (h : ∀ a, f a = Except.ok (g a)) :
    ∀ l : List α, l.mapM f = Except.ok (l.map g)
  | [] => rfl
  | a :: l => by
    rw [List.mapM_cons, h a, mapM_ok_of_forall_ok f g h l]
    rfl

/-- C8 amended: neither VolSurface construction nor evolve validates the
parameter-sequence lengths up front.  Construction always succeeds,
mismatched lengths included; evolve with equal-length inputs runs exactly as
the elementwise model (no validation step exists to reject anything), and a
non-broadcastable mismatch only raises the numpy ValueError inside the first
loop step's blend computation - never before the computation. -/
theorem C8_amended_no_length_validation :
    (∀ (atm_strike : ℚ) (dtes atm_vols skews kurtosis : List ℚ),
      VolSurface.init atm_strike dtes atm_vols skews kurtosis =
        Except.ok { atm_strike := atm_strike, dtes := dtes, atm_vols := atm_vols,
                    skews := skews, kurtosis := kurtosis }) ∧
    (∀ (s : VolSurface) (timesteps : Int) (navs nsk nku : List ℚ),
      navs.length = s.atm_vols.length → nsk.length = s.skews.length →
      nku.length = s.kurtosis.length →
      s.evolve_checked timesteps navs nsk nku =
        Except.ok (s.evolve timesteps navs nsk nku)) ∧
    (∀ (s : VolSurface) (timesteps : Int) (navs nsk nku : List ℚ),
      1 ≤ timesteps → navs.length ≠ s.atm_vols.length →
      s.atm_vols.length ≠ 1 → navs.length ≠ 1 →
      s.evolve_checked timesteps navs nsk nku =
        Except.error "ValueError: operands could not be broadcast together") := by
  have key : ∀ (factor : ℚ) (old nw : List ℚ), nw.length = old.length →
      np_blend factor old nw = Except.ok (blend factor old nw) := by
    intro factor old nw h
    unfold np_blend blend
    rw [if_pos h.symm]
  refine ⟨fun atm_strike dtes atm_vols skews kurtosis => rfl, ?_, ?_⟩
  · intro s timesteps navs nsk nku h1 h2 h3
    unfold VolSurface.evolve_checked VolSurface.evolve
    apply mapM_ok_of_forall_ok
    intro step
    simp only [key _ _ _ h1, key _ _ _ h2, key _ _ _ h3]
    rfl
  · intro s timesteps navs nsk nku ht h1 h2 h3
    unfold VolSurface.evolve_checked
    obtain ⟨n, hn⟩ : ∃ n, timesteps.toNat = n + 1 := ⟨timesteps.toNat - 1, by omega⟩
    rw [hn, List.range_succ_eq_map, List.mapM_cons]
    have hc1 : ¬ (s.atm_vols.length = navs.length) := fun hc => h1 hc.symm
    simp only [np_blend, if_neg hc1, if_neg h2, if_neg h3]
    rfl

/-- Witness for C8 amended: the scenario surface evolved over two steps
toward equal-length targets succeeds with exactly the elementwise blends,
while a three-entry target against the two-entry surface raises the numpy
broadcast ValueError inside the loop. -/
theorem C8_amended_no_length_validation_witness :
    testSurface.evolve_checked 2 [3/10, 2/5] [-1/10, -1/10] [1/20, 1/20] =
      Except.ok (testSurface.evolve 2 [3/10, 2/5] [-1/10, -1/10] [1/20, 1/20]) ∧
    testSurface.evolve_checked 2 [3/10, 2/5, 1/2] [-1/10, -1/10] [1/20, 1/20] =
      Except.error "ValueError: operands could not be broadcast together" :=
  ⟨C8_amended_no_length_validation.2.1 testSurface 2 [3/10, 2/5] [-1/10, -1/10]
      [1/20, 1/20] rfl rfl rfl,
   C8_amended_no_length_validation.2.2 testSurface 2 [3/10, 2/5, 1/2]
      [-1/10, -1/10] [1/20, 1/20] (by decide) (by decide) (by decide) (by decide)⟩

/-- C10: an Option whose underlying is None still computes all four Greeks,
using the fallback spot 100.0 (exposed by the spot-returning probe), while
Option.price on the same option raises AttributeError for every collaborator;
an Option with a real Stock underlying uses that stock's current price as the
spot in both methods. -/
theorem C10_greeks_fallback_and_price_dereference (cfg : GlobalConfig)
    (o : Option') (vs : VolSurface) :
    (o.underlying = none →
      (∀ bs : BSModel, o.price bs cfg vs =
        Except.error "AttributeError: NoneType object has no attribute price") ∧
      o.greeks spotProbe cfg vs =
        { delta := 100, gamma := 100, theta := 100, vega := 100 }) ∧
    (∀ stk : Stock, o.underlying = some stk →
      o.price spotProbe cfg vs = Except.ok ((o.pos : ℚ) * stk.price) ∧
      o.greeks spotProbe cfg vs =
        { delta := stk.price, gamma := stk.price, theta := stk.price,
          vega := stk.price }) := by
  constructor
  · intro h
    constructor
    · intro bs
      simp [Option'.price, h]
    · simp [Option'.greeks, h, spotProbe]
  · intro stk h
    constructor
    · simp [Option'.price, h, spotProbe]
    · simp [Option'.greeks, h, spotProbe]

/-- Witness for C10 at concrete options: the underlying-less option prices to
an AttributeError yet computes Greeks from spot 100, and the stock-backed
option uses the stock's price 100 for both. -/
theorem C10_greeks_fallback_and_price_dereference_witness :
    testOptionNone.price rateProbe initialConfig testSurface =
      Except.error "AttributeError: NoneType object has no attribute price" ∧
    testOptionNone.greeks spotProbe initialConfig testSurface =
      { delta := 100, gamma := 100, theta := 100, vega := 100 } ∧
    testOption.price spotProbe initialConfig testSurface =
      Except.ok ((testOption.pos : ℚ) * testStock.price) ∧
    testOption.greeks spotProbe initialConfig testSurface =
      { delta := testStock.price, gamma := testStock.price,
        theta := testStock.price, vega := testStock.price } :=
  ⟨((C10_greeks_fallback_and_price_dereference initialConfig testOptionNone
      testSurface).1 rfl).1 rateProbe,
   ((C10_greeks_fallback_and_price_dereference initialConfig testOptionNone
      testSurface).1 rfl).2,
   ((C10_greeks_fallback_and_price_dereference initialConfig testOption
      testSurface).2 testStock rfl).1,
   ((C10_greeks_fallback_and_price_dereference initialConfig testOption
      testSurface).2 testStock rfl).2⟩

/-- C6: portfolio_greeks is the position-scaled elementwise sum of the
per-contract Greeks: an empty portfolio aggregates to zero in all four keys,
Option.greeks itself is independent of the position (no scaling applied at
option level), a two-option portfolio aggregates to the elementwise sum of
the two individually scaled contributions, and in general the aggregate is
the fold of the elementwise sums of pos-scaled per-contract Greeks. -/
theorem C6_portfolio_greeks_linearity (bs : BSModel) (cfg : GlobalConfig)
    (vs : VolSurface) :
    (∀ stock : Stock, (Portfolio.init [] stock).portfolio_greeks bs cfg vs =
      { delta := 0, gamma := 0, theta := 0, vega := 0 }) ∧
    (∀ (o : Option') (pos1 pos2 : Int),
      Option'.greeks { o with pos := pos1 } bs cfg vs =
        Option'.greeks { o with pos := pos2 } bs cfg vs) ∧
    (∀ (o1 o2 : Option') (stock : Stock),
      (Portfolio.init [o1, o2] stock).portfolio_greeks bs cfg vs =
        Greeks.add (Greeks.scale (o1.pos : ℚ) (o1.greeks bs cfg vs))
          (Greeks.scale (o2.pos : ℚ) (o2.greeks bs cfg vs))) ∧
    (∀ p : Portfolio, p.portfolio_greeks bs cfg vs =
      (p.options.map (fun o => Greeks.scale (o.pos : ℚ) (o.greeks bs cfg vs))).foldl
        Greeks.add { delta := 0, gamma := 0, theta := 0, vega := 0 }) := by
  refine ⟨fun stock => rfl, fun o pos1 pos2 => rfl, ?_, ?_⟩
  · intro o1 o2 stock
    simp [Portfolio.portfolio_greeks, Portfolio.init, Greeks.add, Greeks.scale]
  · intro p
    rw [List.foldl_map]
    rfl

/-- C7 counterexample: a chain row priced through Chain.__init__'s default
rate consumes 0.01 while the process-wide rate of contracts.py is 0.04, so
not every pricing call in the system consumes the single process-wide
risk-free rate. -/
theorem C7_counterexample_chain_uses_own_rate :
    (Chain.row rateProbe testSurface 100 Chain.default_r 7 100 "c").price = 1 / 100 ∧
    (Chain.row rateProbe testSurface 100 Chain.default_r 7 100 "c").r = 1 / 100 ∧
    initialConfig.risk_free_rate = 4 / 100 ∧ (1 / 100 : ℚ) ≠ 4 / 100 :=
  ⟨rfl, rfl, rfl, by norm_num⟩

/-- C7 amended: the rate defaults to 0.04 and is replaced wholesale by
set_risk_free_rate, Option.price and Option.greeks consume exactly the
process-wide rate (exposed by the rate-returning probe), but the chain
builder consumes its own constructor parameter r (default 0.01): every row
it produces carries and prices with that r instead of the global rate. -/
theorem C7_amended_rate_sources :
    initialConfig.risk_free_rate = 4 / 100 ∧
    (∀ (r : ℚ) (cfg : GlobalConfig), (set_risk_free_rate r cfg).risk_free_rate = r) ∧
    (∀ (cfg : GlobalConfig) (o : Option') (vs : VolSurface) (stk : Stock),
      o.underlying = some stk →
      o.price rateProbe cfg vs = Except.ok ((o.pos : ℚ) * cfg.risk_free_rate)) ∧
    (∀ (cfg : GlobalConfig) (o : Option') (vs : VolSurface),
      o.greeks rateProbe cfg vs =
        { delta := cfg.risk_free_rate, gamma := cfg.risk_free_rate,
          theta := cfg.risk_free_rate, vega := cfg.risk_free_rate }) ∧
    (∀ (bs : BSModel) (dtes : List ℚ) (vs : VolSurface) (up : ℚ)
      (s_range : List ℚ) (w r : ℚ) (row : ChainRow),
      row ∈ Chain.init bs dtes vs up s_range w r → row.r = r) ∧
    Chain.default_r = 1 / 100 := by
  refine ⟨rfl, fun r cfg => rfl, ?_, ?_, ?_, rfl⟩
  · intro cfg o vs stk h
    simp [Option'.price, h, rateProbe]
  · intro cfg o vs
    simp [Option'.greeks, rateProbe]
  · intro bs dtes vs up s_range w r row hrow
    simp only [Chain.init, List.mem_flatMap, List.mem_cons,
      List.not_mem_nil, or_false] at hrow
    obtain ⟨dte, -, strike, -, hr⟩ := hrow
    rcases hr with rfl | rfl <;> rfl

/-- Helper: the numpy arange of the small witness chain has one strike. -/
theorem arange_zero_five_five : arange 0 5 5 = [0] := by
  have h : (Int.ceil (((5 : ℚ) - 0) / 5)).toNat = 1 := by norm_num
  unfold arange
  rw [h]
  have hr : List.range 1 = [0] := rfl
  rw [hr]
  norm_num

/-- Helper: the strike sequence of the small witness chain over the price
range 0 to 5 with width 5 is the single strike 0. -/
theorem chain_small_strikes :
    arange ((pyRound (listMin [(0:ℚ), 5] / 5) : ℚ) * 5)
      ((pyRound (listMax [(0:ℚ), 5] / 5) : ℚ) * 5) 5 = [0] := by
  have hmin : listMin [(0:ℚ), 5] / 5 = 0 := by norm_num [listMin]
  have hmax : listMax [(0:ℚ), 5] / 5 = 1 := by norm_num [listMax]
  have h0 : pyRound 0 = 0 := by norm_num [pyRound]
  have h1 : pyRound 1 = 1 := by norm_num [pyRound]
  rw [hmin, hmax, h0, h1]
  norm_num
  exact arange_zero_five_five

/-- Witness for C7 amended: the stock-backed test option priced against the
probe returns the configured process-wide rate, its Greeks all return the
same rate, and every row of a concrete chain built over one expiry and one
strike carries the chain's own default rate. -/
theorem C7_amended_rate_sources_witness :
    testOption.price rateProbe initialConfig testSurface =
      Except.ok ((testOption.pos : ℚ) * initialConfig.risk_free_rate) ∧
    testOption.greeks rateProbe initialConfig testSurface =
      { delta := initialConfig.risk_free_rate, gamma := initialConfig.risk_free_rate,
        theta := initialConfig.risk_free_rate, vega := initialConfig.risk_free_rate } ∧
    (Chain.row rateProbe testSurface 100 Chain.default_r 7 0 "c").r = Chain.default_r :=
  ⟨C7_amended_rate_sources.2.2.1 initialConfig testOption testSurface testStock rfl,
   C7_amended_rate_sources.2.2.2.1 initialConfig testOption testSurface,
   C7_amended_rate_sources.2.2.2.2.1 rateProbe [7] testSurface 100 [0, 5] 5
     Chain.default_r (Chain.row rateProbe testSurface 100 Chain.default_r 7 0 "c")
     (by rw [Chain.init, chain_small_strikes]; simp)⟩

/-- C1 counterexample: plot_pnl_evolution_3d with timesteps = 0 raises
(ZeroDivisionError out of the first evolve_portfolio call) after the first
price-range mutation, and the shared stock price is left at the first
simulated price 90 instead of being restored to the pre-call value 100 -
the reset line is skipped on the exception path. -/
theorem C1_counterexample_price_not_restored_on_exception :
    (testPortfolio.plot_pnl_evolution_3d rateProbe initialConfig testSurface
      [3/10, 2/5] [-1/10, -1/10] [1/20, 1/20] 10 0 [90, 110]).1.stock.price = 90 ∧
    testPortfolio.stock.price = 100 ∧
    (testPortfolio.plot_pnl_evolution_3d rateProbe initialConfig testSurface
      [3/10, 2/5] [-1/10, -1/10] [1/20, 1/20] 10 0 [90, 110]).2 =
      Except.error "ZeroDivisionError: division by zero" ∧
    (90 : ℚ) ≠ 100 :=
  ⟨rfl, rfl, rfl, by norm_num⟩

/-- C1 amended: both grid engines restore the shared stock price on every
normal return - whenever a call returns a grid rather than raising, the
returned state carries the pre-call price; on an exception the mutated price
is left in place (no scoped guarantee exists in the source). -/
theorem C1_amended_price_restored_on_normal_return (bs : BSModel)
    (cfg : GlobalConfig) (p : Portfolio) (vs : VolSurface)
    (navs nsk nku : List ℚ) (elapsed : ℚ) (timesteps : Int) (s_range : List ℚ) :
    (∀ (pf : Portfolio) (rows : List (List ℚ)),
      p.plot_pnl_evolution_3d bs cfg vs navs nsk nku elapsed timesteps s_range =
        (pf, Except.ok rows) → pf.stock.price = p.stock.price) ∧
    (∀ (greek : String) (pf : Portfolio) (rows : List (List ℚ)),
      p.plot_greek_evolution_3d bs cfg vs navs nsk nku elapsed timesteps s_range
        greek = (pf, Except.ok rows) → pf.stock.price = p.stock.price) := by
  constructor
  · intro pf rows h
    unfold Portfolio.plot_pnl_evolution_3d at h
    split at h
    · simp at h
    · split at h
      · simp at h
      · rw [Prod.mk.injEq] at h
        obtain ⟨h1, -⟩ := h
        rw [← h1]
        rfl
  · intro greek pf rows h
    unfold Portfolio.plot_greek_evolution_3d at h
    split at h
    · simp at h
    · rw [Prod.mk.injEq] at h
      obtain ⟨h1, -⟩ := h
      rw [← h1]
      rfl

/-- Witness for C1 amended: concrete successful grid calls over two prices
and one timestep end with the stock price restored to the pre-call value. -/
theorem C1_amended_price_restored_on_normal_return_witness :
    (testPortfolio.plot_pnl_evolution_3d rateProbe initialConfig testSurface
      [3/10, 2/5] [-1/10, -1/10] [1/20, 1/20] 10 1 [90, 110]).1.stock.price =
      testPortfolio.stock.price ∧
    (testPortfolio.plot_greek_evolution_3d rateProbe initialConfig testSurface
      [3/10, 2/5] [-1/10, -1/10] [1/20, 1/20] 10 1 [90, 110] "delta").1.stock.price =
      testPortfolio.stock.price :=
  ⟨(C1_amended_price_restored_on_normal_return rateProbe initialConfig
      testPortfolio testSurface [3/10, 2/5] [-1/10, -1/10] [1/20, 1/20] 10 1
      [90, 110]).1
    (testPortfolio.plot_pnl_evolution_3d rateProbe initialConfig testSurface
      [3/10, 2/5] [-1/10, -1/10] [1/20, 1/20] 10 1 [90, 110]).1
    ((testPortfolio.plot_pnl_evolution_3d rateProbe initialConfig testSurface
      [3/10, 2/5] [-1/10, -1/10] [1/20, 1/20] 10 1 [90, 110]).2.toOption.getD [])
    rfl,
   (C1_amended_price_restored_on_normal_return rateProbe initialConfig
      testPortfolio testSurface [3/10, 2/5] [-1/10, -1/10] [1/20, 1/20] 10 1
      [90, 110]).2 "delta"
    (testPortfolio.plot_greek_evolution_3d rateProbe initialConfig testSurface
      [3/10, 2/5] [-1/10, -1/10] [1/20, 1/20] 10 1 [90, 110] "delta").1
    ((testPortfolio.plot_greek_evolution_3d rateProbe initialConfig testSurface
      [3/10, 2/5] [-1/10, -1/10] [1/20, 1/20] 10 1 [90, 110] "delta").2.toOption.getD [])
    rfl⟩

/-- Helper: blending with factor 0 returns the old sequence when the new one
has the same length. -/
theorem blend_zero : ∀ (old nw : List ℚ), nw.length = old.length →
    blend 0 old nw = old
  | [], [], _ => rfl
  | [], n :: ns, h => by simp at h
  | o :: os, [], h => by simp at h
  | o :: os, n :: ns, h => by
    simp only [blend, List.zipWith_cons_cons]
    have ht : blend 0 os ns = os := blend_zero os ns (by simpa using h)
    rw [show (1 - (0:ℚ)) * o + 0 * n = o by ring]
    exact congrArg (List.cons o) ht

/-- Helper: blending with factor 1 returns the new sequence when it has the
same length as the old one. -/
theorem blend_one : ∀ (old nw : List ℚ), nw.length = old.length →
    blend 1 old nw = nw
  | [], [], _ => rfl
  | [], n :: ns, h => by simp at h
  | o :: os, [], h => by simp at h
  | o :: os, n :: ns, h => by
    simp only [blend, List.zipWith_cons_cons]
    have ht : blend 1 os ns = ns := blend_one os ns (by simpa using h)
    rw [show (1 - (1:ℚ)) * o + 1 * n = n by ring]
    exact congrArg (List.cons n) ht

/-- C4: evolve with timesteps N at least 1 produces exactly N surfaces; the
surface at step i blends every parameter sequence with factor i/(N-1) when
N exceeds 1 and factor 1 otherwise, carrying the anchor's atm_strike and
dtes unchanged; hence for N above 1 the first surface equals the anchor and
the last carries exactly the target parameters, while N = 1 yields the
single fully-target surface. -/
theorem C4_evolve_blend_and_endpoints (s : VolSurface) (timesteps : Int)
    (navs nsk nku : List ℚ) (_hN : 1 ≤ timesteps)
    (h1 : navs.length = s.atm_vols.length) (h2 : nsk.length = s.skews.length)
    (h3 : nku.length = s.kurtosis.length) :
    (s.evolve timesteps navs nsk nku).length = timesteps.toNat ∧
    (∀ (i : Nat) (surf : VolSurface),
      (s.evolve timesteps navs nsk nku)[i]? = some surf →
      surf = { atm_strike := s.atm_strike, dtes := s.dtes,
               atm_vols := blend (if 1 < timesteps then (i : ℚ) / ((timesteps : ℚ) - 1) else 1)
                 s.atm_vols navs,
               skews := blend (if 1 < timesteps then (i : ℚ) / ((timesteps : ℚ) - 1) else 1)
                 s.skews nsk,
               kurtosis := blend (if 1 < timesteps then (i : ℚ) / ((timesteps : ℚ) - 1) else 1)
                 s.kurtosis nku }) ∧
    (1 < timesteps →
      (s.evolve timesteps navs nsk nku).head? = some s ∧
      (s.evolve timesteps navs nsk nku).getLast? =
        some { atm_strike := s.atm_strike, dtes := s.dtes, atm_vols := navs,
               skews := nsk, kurtosis := nku }) ∧
    (timesteps = 1 →
      s.evolve timesteps navs nsk nku =
        [{ atm_strike := s.atm_strike, dtes := s.dtes, atm_vols := navs,
           skews := nsk, kurtosis := nku }]) := by
  have hlen : (s.evolve timesteps navs nsk nku).length = timesteps.toNat := by
    simp only [VolSurface.evolve, List.length_map, List.length_range]
  have hidx : ∀ i : Nat, i < timesteps.toNat →
      (s.evolve timesteps navs nsk nku)[i]? = some
        { atm_strike := s.atm_strike, dtes := s.dtes,
          atm_vols := blend (if 1 < timesteps then (i : ℚ) / ((timesteps : ℚ) - 1) else 1)
            s.atm_vols navs,
          skews := blend (if 1 < timesteps then (i : ℚ) / ((timesteps : ℚ) - 1) else 1)
            s.skews nsk,
          kurtosis := blend (if 1 < timesteps then (i : ℚ) / ((timesteps : ℚ) - 1) else 1)
            s.kurtosis nku } := by
    intro i hi
    simp only [VolSurface.evolve, List.getElem?_map]
    simp [List.getElem?_range, hi]
  refine ⟨hlen, ?_, ?_, ?_⟩
  · intro i surf hsurf
    have hi : i < timesteps.toNat := by
      by_contra hge
      rw [List.getElem?_eq_none (by omega : (s.evolve timesteps navs nsk nku).length ≤ i)]
        at hsurf
      · exact Option.noConfusion hsurf
    rw [hidx i hi] at hsurf
    exact (Option.some_inj.mp hsurf).symm
  · intro hgt
    constructor
    · rw [List.head?_eq_getElem?, hidx 0 (by omega)]
      congr 1
      have hf : (if 1 < timesteps then ((0 : Nat) : ℚ) / ((timesteps : ℚ) - 1) else 1) = 0 := by
        rw [if_pos hgt]
        simp
      rw [hf, blend_zero _ _ h1, blend_zero _ _ h2, blend_zero _ _ h3]
    · rw [List.getLast?_eq_getElem?, hlen, hidx (timesteps.toNat - 1) (by omega)]
      congr 1
      have hne : ((timesteps : ℚ) - 1) ≠ 0 := by
        have hq : (1 : ℚ) < (timesteps : ℚ) := by exact_mod_cast hgt
        exact sub_ne_zero.mpr (ne_of_gt hq)
      have hcast : ((timesteps.toNat - 1 : Nat) : ℚ) = (timesteps : ℚ) - 1 := by
        have h1' : 1 ≤ timesteps.toNat := by omega
        rw [Nat.cast_sub h1', Nat.cast_one]
        congr 1
        exact_mod_cast Int.toNat_of_nonneg (by omega : (0 : Int) ≤ timesteps)
      have hf : (if 1 < timesteps then ((timesteps.toNat - 1 : Nat) : ℚ) / ((timesteps : ℚ) - 1)
          else 1) = 1 := by
        rw [if_pos hgt, hcast, div_self hne]
      rw [hf, blend_one _ _ h1, blend_one _ _ h2, blend_one _ _ h3]
  · intro h1t
    apply List.ext_getElem?
    intro i
    cases i with
    | zero =>
      rw [hidx 0 (by omega)]
      have hf : (if 1 < timesteps then ((0 : Nat) : ℚ) / ((timesteps : ℚ) - 1) else 1) = 1 := by
        rw [if_neg (by omega)]
      rw [hf, blend_one _ _ h1, blend_one _ _ h2, blend_one _ _ h3]
      rfl
    | succ n =>
      rw [List.getElem?_eq_none (by omega : (s.evolve timesteps navs nsk nku).length ≤ n + 1)]
      rfl

/-- Witness for C4 at the scenario surface with two timesteps: the first
yielded surface equals the anchor and the last carries exactly the target
parameters. -/
theorem C4_evolve_blend_and_endpoints_witness :
    (testSurface.evolve 2 [3/10, 2/5] [-1/10, -1/10] [1/20, 1/20]).head? =
      some testSurface ∧
    (testSurface.evolve 2 [3/10, 2/5] [-1/10, -1/10] [1/20, 1/20]).getLast? =
      some { atm_strike := 100, dtes := [7, 14], atm_vols := [3/10, 2/5],
             skews := [-1/10, -1/10], kurtosis := [1/20, 1/20] } :=
  (C4_evolve_blend_and_endpoints testSurface 2 [3/10, 2/5] [-1/10, -1/10]
    [1/20, 1/20] (by decide) rfl rfl rfl).2.2.1 (by decide)

/-- Helper: indexing a mapped enumeration. -/
theorem enum_map_getElem? {α β : Type} (l : List α) (g : Nat × α → β) (i : Nat) :
    (l.enum.map g)[i]? = (l[i]?).map (fun a => g (i, a)) := by
  rw [List.getElem?_map, List.getElem?_enum, Option.map_map]
  rfl

/-- Helper: the explicit yield list of evolve_portfolio for a nonzero
timestep count: one pair per evolved surface, in step order, each option
rebuilt through Option.__init__ from the original option with the clamped
decayed dte computed from the original dte. -/
theorem evolve_portfolio_eq (p : Portfolio) (vs : VolSurface)
    (navs nsk nku : List ℚ) (elapsed : ℚ) (timesteps : Int)
    (h : timesteps ≠ 0) :
    p.evolve_portfolio vs navs nsk nku elapsed timesteps =
      Except.ok ((vs.evolve timesteps navs nsk nku).enum.map (fun se =>
        (Portfolio.init (p.options.map (fun opt =>
          Option'.init opt.flag opt.strike
            (max (opt.dte - elapsed / (timesteps : ℚ) * ((se.1 : ℚ) + 1)) 0)
            opt.pos opt.underlying)) p.stock, se.2))) := by
  unfold Portfolio.evolve_portfolio
  rw [if_neg h]

/-- C2 amended: for timesteps at least 1, evolve_portfolio yields exactly
timesteps pairs in increasing step order, paired one-to-one with the evolved
surfaces; at 0-based step index step every option of the yielded portfolio
is a newly constructed Option with
dte = max(original dte - dt*(step+1), 0) computed from the ORIGINAL dte with
dt = elapsed_time/timesteps, keeping the original underlying reference and
the portfolio's stock; the dte is never negative and is exactly 0 once
dt*(step+1) reaches the original dte; and when elapsed_time is nonnegative
(the decay direction the spec describes) each option's dte is non-increasing
across steps. -/
theorem C2_evolve_portfolio_decay (p : Portfolio) (vs : VolSurface)
    (navs nsk nku : List ℚ) (elapsed : ℚ) (timesteps : Int)
    (hN : 1 ≤ timesteps) :
    ∃ pairs : List (Portfolio × VolSurface),
      p.evolve_portfolio vs navs nsk nku elapsed timesteps = Except.ok pairs ∧
      pairs.length = timesteps.toNat ∧
      pairs.map Prod.snd = vs.evolve timesteps navs nsk nku ∧
      (∀ (step : Nat) (pr : Portfolio × VolSurface), pairs[step]? = some pr →
        pr.1.stock = p.stock ∧ pr.1.options.length = p.options.length ∧
        (∀ (i : Nat) (opt : Option'), p.options[i]? = some opt →
          pr.1.options[i]? = some (Option'.init opt.flag opt.strike
            (max (opt.dte - elapsed / (timesteps : ℚ) * ((step : ℚ) + 1)) 0)
            opt.pos opt.underlying)) ∧
        (∀ (i : Nat) (opt o : Option'), p.options[i]? = some opt →
          pr.1.options[i]? = some o →
          0 ≤ o.dte ∧
          (opt.dte ≤ elapsed / (timesteps : ℚ) * ((step : ℚ) + 1) → o.dte = 0))) ∧
      (0 ≤ elapsed →
        ∀ (step i : Nat) (pr pr' : Portfolio × VolSurface) (o o' : Option'),
          pairs[step]? = some pr → pairs[step + 1]? = some pr' →
          pr.1.options[i]? = some o → pr'.1.options[i]? = some o' →
          o'.dte ≤ o.dte) := by
  refine ⟨_, evolve_portfolio_eq p vs navs nsk nku elapsed timesteps (by omega),
    ?_, ?_, ?_, ?_⟩
  · simp [List.length_map, List.enum_length, VolSurface.evolve]
  · rw [List.map_map]
    exact List.enum_map_snd _
  · intro step pr hpr
    rw [enum_map_getElem?] at hpr
    cases hsurf : (vs.evolve timesteps navs nsk nku)[step]? with
    | none => rw [hsurf] at hpr; simp at hpr
    | some surf =>
      rw [hsurf] at hpr
      simp only [Option.map_some'] at hpr
      obtain rfl : _ = pr := Option.some_inj.mp hpr
      refine ⟨rfl, by simp [Portfolio.init], ?_, ?_⟩
      · intro i opt hopt
        simp only [Portfolio.init]
        rw [List.getElem?_map, hopt, Option.map_some']
      · intro i opt o hopt ho
        simp only [Portfolio.init] at ho
        rw [List.getElem?_map, hopt, Option.map_some'] at ho
        obtain rfl : _ = o := Option.some_inj.mp ho
        constructor
        · exact le_max_right _ _
        · intro hle
          simp only [Option'.init]
          exact max_eq_right (sub_nonpos.mpr hle)
  · intro helapsed step i pr pr' o o' h1 h2 h3 h4
    rw [enum_map_getElem?] at h1 h2
    cases hsurf : (vs.evolve timesteps navs nsk nku)[step]? with
    | none => rw [hsurf] at h1; simp at h1
    | some surf =>
      rw [hsurf] at h1
      simp only [Option.map_some'] at h1
      obtain rfl : _ = pr := Option.some_inj.mp h1
      cases hsurf' : (vs.evolve timesteps navs nsk nku)[step + 1]? with
      | none => rw [hsurf'] at h2; simp at h2
      | some surf' =>
        rw [hsurf'] at h2
        simp only [Option.map_some'] at h2
        obtain rfl : _ = pr' := Option.some_inj.mp h2
        simp only [Portfolio.init] at h3 h4
        rw [List.getElem?_map] at h3 h4
        cases hopt : p.options[i]? with
        | none => rw [hopt] at h3; simp at h3
        | some opt =>
          rw [hopt] at h3 h4
          simp only [Option.map_some'] at h3 h4
          obtain rfl : _ = o := Option.some_inj.mp h3
          obtain rfl : _ = o' := Option.some_inj.mp h4
          simp only [Option'.init]
          have hts : (0 : ℚ) < (timesteps : ℚ) := by exact_mod_cast hN
          have hdt : 0 ≤ elapsed / (timesteps : ℚ) :=
            div_nonneg helapsed (le_of_lt hts)
          refine max_le_max (sub_le_sub_left ?_ _) le_rfl
          refine mul_le_mul_of_nonneg_left ?_ hdt
          push_cast
          linarith

/-- C2 counterexample: with a negative elapsed_time the claimed universally
quantified monotonicity fails - evolving the ten-day test option by
elapsed_time -10 over two steps yields dtes 15 then 20, an increase across
steps, so the dte sequence is not non-increasing for every elapsed_time. -/
theorem C2_counterexample_negative_elapsed_time :
    ((testPortfolio.evolve_portfolio testSurface [3/10, 2/5] [-1/10, -1/10]
        [1/20, 1/20] (-10) 2).toOption.map
      (fun pairs => pairs.map (fun pr => pr.1.options.map (fun o => o.dte)))) =
      some [[15], [20]] ∧ ¬ ((20 : ℚ) ≤ 15) := by
  constructor
  · rw [evolve_portfolio_eq testPortfolio testSurface [3/10, 2/5] [-1/10, -1/10]
      [1/20, 1/20] (-10) 2 (by decide)]
    simp only [Except.toOption, Option.map_some']
    norm_num [VolSurface.evolve, Portfolio.init, Option'.init, testPortfolio,
      testOption, testStock, List.enum, List.enumFrom, blend, max_def]
  · norm_num

/-- Witness for C2 amended: the ten-day option portfolio evolved over
elapsed time 4 with two timesteps yields exactly two pairs. -/
theorem C2_evolve_portfolio_decay_witness :
    ((testPortfolio.evolve_portfolio testSurface [3/10, 2/5] [-1/10, -1/10]
        [1/20, 1/20] 4 2).toOption.map List.length) = some 2 := by
  obtain ⟨pairs, hok, hlen, -⟩ := C2_evolve_portfolio_decay testPortfolio
    testSurface [3/10, 2/5] [-1/10, -1/10] [1/20, 1/20] 4 2 (by decide)
  rw [hok]
  simp only [Except.toOption, Option.map_some']
  simp [hlen]

/-- Helper: a monadic map over Except that returns ok produces a list of the
same length as its input. -/
theorem mapM_ok_length {α β : Type} (f : α → Except String β) :
    ∀ (l : List α) (l' : List β), l.mapM f = Except.ok l' → l'.length = l.length
  | [], l', h => by
    simp only [List.mapM_nil] at h
    cases h
    rfl
  | a :: l, l', h => by
    rw [List.mapM_cons] at h
    cases hfa : f a with
    | error e =>
      rw [hfa] at h
      exact Except.noConfusion h
    | ok b =>
      rw [hfa] at h
      cases hbs : l.mapM f with
      | error e =>
        rw [hbs] at h
        exact Except.noConfusion h
      | ok bs =>
        rw [hbs] at h
        have h' : Except.ok (b :: bs) = Except.ok l' := h
        injection h' with h''
        rw [← h'']
        simp [mapM_ok_length f l bs hbs]

/-- Helper: a successful PnL grid row always has one entry per timestep - the
row computation applies no minimum-step check of its own. -/
theorem pnl_row_length (p : Portfolio) (bs : BSModel) (cfg : GlobalConfig)
    (vs : VolSurface) (navs nsk nku : List ℚ) (elapsed : ℚ) (timesteps : Int)
    (init_value : ℚ) (r : List ℚ)
    (h : p.pnl_row bs cfg vs navs nsk nku elapsed timesteps init_value =
      Except.ok r) : r.length = timesteps.toNat := by
  unfold Portfolio.pnl_row at h
  by_cases ht : timesteps = 0
  · subst ht
    rw [show p.evolve_portfolio vs navs nsk nku elapsed 0 =
      Except.error "ZeroDivisionError: division by zero" from rfl] at h
    exact Except.noConfusion h
  · rw [evolve_portfolio_eq p vs navs nsk nku elapsed timesteps ht] at h
    have hlen := mapM_ok_length _ _ _ h
    rw [hlen]
    simp [List.enum_length, VolSurface.evolve]

/-- Helper: a successful Greek grid row always has one entry per timestep. -/
theorem greek_row_length (p : Portfolio) (bs : BSModel) (cfg : GlobalConfig)
    (vs : VolSurface) (navs nsk nku : List ℚ) (elapsed : ℚ) (timesteps : Int)
    (greek : String) (r : List ℚ)
    (h : p.greek_row bs cfg vs navs nsk nku elapsed timesteps greek =
      Except.ok r) : r.length = timesteps.toNat := by
  unfold Portfolio.greek_row at h
  by_cases ht : timesteps = 0
  · subst ht
    rw [show p.evolve_portfolio vs navs nsk nku elapsed 0 =
      Except.error "ZeroDivisionError: division by zero" from rfl] at h
    exact Except.noConfusion h
  · rw [evolve_portfolio_eq p vs navs nsk nku elapsed timesteps ht] at h
    have hlen := mapM_ok_length _ _ _ h
    rw [hlen]
    simp [List.enum_length, VolSurface.evolve]

/-- Helper: every row of a successful price-range loop was produced by a
successful row computation on some portfolio state. -/
theorem run_price_rows_ok_rows (row : Portfolio → Except String (List ℚ)) :
    ∀ (s_range : List ℚ) (p pf : Portfolio) (rows : List (List ℚ)),
      run_price_rows row s_range p = (pf, Except.ok rows) →
      ∀ r ∈ rows, ∃ q, row q = Except.ok r
  | [], p, pf, rows, h => by
    unfold run_price_rows at h
    rw [Prod.mk.injEq] at h
    obtain ⟨-, h2⟩ := h
    injection h2 with h2
    rw [← h2]
    intro r hr
    exact absurd hr (List.not_mem_nil r)
  | s :: rest, p, pf, rows, h => by
    simp only [run_price_rows] at h
    cases hrow : row (p.set_price s) with
    | error e =>
      simp only [hrow] at h
      rw [Prod.mk.injEq] at h
      exact Except.noConfusion h.2
    | ok vals =>
      simp only [hrow] at h
      rcases hrec : run_price_rows row rest (p.set_price s) with ⟨p2, res⟩
      cases res with
      | error e =>
        simp only [hrec] at h
        rw [Prod.mk.injEq] at h
        exact Except.noConfusion h.2
      | ok rows' =>
        simp only [hrec] at h
        rw [Prod.mk.injEq] at h
        obtain ⟨-, h2⟩ := h
        injection h2 with h2
        rw [← h2]
        intro r hr
        rcases List.mem_cons.mp hr with rfl | hr'
        · exact ⟨p.set_price s, hrow⟩
        · exact run_price_rows_ok_rows row rest (p.set_price s) p2 rows' hrec r hr'

/-- C9 counterexample: both grid engines called with timesteps = 1 (fewer
than two usable steps) do not fail: each silently returns a grid with one
column per price row - here two rows of length one from each engine. -/
theorem C9_counterexample_single_step_grid_not_rejected :
    ((testPortfolio.plot_pnl_evolution_3d rateProbe initialConfig testSurface
        [3/10, 2/5] [-1/10, -1/10] [1/20, 1/20] 10 1 [90, 110]).2.toOption.map
      (fun rows => (rows.length, rows.map List.length))) = some (2, [1, 1]) ∧
    ((testPortfolio.plot_greek_evolution_3d rateProbe initialConfig testSurface
        [3/10, 2/5] [-1/10, -1/10] [1/20, 1/20] 10 1 [90, 110] "delta").2.toOption.map
      (fun rows => (rows.length, rows.map List.length))) = some (2, [1, 1]) ∧
    (1 : Int) < 2 :=
  ⟨rfl, rfl, by decide⟩

/-- C9 amended: only create_vol_surface_evolution_video enforces the
two-frame minimum - it raises ValueError exactly when fewer than two frames
were produced and succeeds otherwise - while neither grid engine applies any
such check: whenever plot_pnl_evolution_3d or plot_greek_evolution_3d
returns a grid, every row has exactly timesteps entries, however small
timesteps is, so a single-step grid is returned silently rather than
rejected. -/
theorem C9_amended_only_video_enforces_min_frames (vs : VolSurface)
    (navs nsk nku : List ℚ) (timesteps : Int) :
    (timesteps < 2 → create_vol_surface_evolution_video vs timesteps navs nsk nku =
      Except.error "Error generated vol surface frames. Less than 2 frames found.") ∧
    (2 ≤ timesteps → create_vol_surface_evolution_video vs timesteps navs nsk nku =
      Except.ok timesteps.toNat) ∧
    (∀ (bs : BSModel) (cfg : GlobalConfig) (p : Portfolio) (elapsed : ℚ)
      (s_range : List ℚ) (pf : Portfolio) (rows : List (List ℚ)),
      p.plot_pnl_evolution_3d bs cfg vs navs nsk nku elapsed timesteps s_range =
        (pf, Except.ok rows) → ∀ r ∈ rows, r.length = timesteps.toNat) ∧
    (∀ (bs : BSModel) (cfg : GlobalConfig) (p : Portfolio) (elapsed : ℚ)
      (s_range : List ℚ) (greek : String) (pf : Portfolio) (rows : List (List ℚ)),
      p.plot_greek_evolution_3d bs cfg vs navs nsk nku elapsed timesteps s_range
        greek = (pf, Except.ok rows) → ∀ r ∈ rows, r.length = timesteps.toNat) := by
  have hlen : (vs.evolve timesteps navs nsk nku).length = timesteps.toNat := by
    simp only [VolSurface.evolve, List.length_map, List.length_range]
  refine ⟨?_, ?_, ?_, ?_⟩
  · intro h
    unfold create_vol_surface_evolution_video
    rw [hlen, if_pos (by omega)]
  · intro h
    unfold create_vol_surface_evolution_video
    rw [hlen, if_neg (by omega)]
  · intro bs cfg p elapsed s_range pf rows h r hr
    unfold Portfolio.plot_pnl_evolution_3d at h
    split at h
    · exact absurd h (by simp)
    · split at h
      · exact absurd h (by simp)
      · rename_i pf0 rows0 hrr
        rw [Prod.mk.injEq] at h
        obtain ⟨-, h2⟩ := h
        injection h2 with h2
        obtain ⟨q, hq⟩ := run_price_rows_ok_rows _ s_range p pf0 rows0 hrr r
          (h2 ▸ hr)
        exact pnl_row_length q bs cfg vs navs nsk nku elapsed timesteps _ r hq
  · intro bs cfg p elapsed s_range greek pf rows h r hr
    unfold Portfolio.plot_greek_evolution_3d at h
    split at h
    · exact absurd h (by simp)
    · rename_i pf0 rows0 hrr
      rw [Prod.mk.injEq] at h
      obtain ⟨-, h2⟩ := h
      injection h2 with h2
      obtain ⟨q, hq⟩ := run_price_rows_ok_rows _ s_range p pf0 rows0 hrr r
        (h2 ▸ hr)
      exact greek_row_length q bs cfg vs navs nsk nku elapsed timesteps
        greek r hq

/-- Witness for C9 amended: one requested timestep yields the video error and
two yield a two-frame success, while successful single-timestep grid calls
on the empty test portfolio produce rows of length one from both engines. -/
theorem C9_amended_only_video_enforces_min_frames_witness :
    create_vol_surface_evolution_video testSurface 1 [3/10, 2/5] [-1/10, -1/10]
      [1/20, 1/20] =
      Except.error "Error generated vol surface frames. Less than 2 frames found." ∧
    create_vol_surface_evolution_video testSurface 2 [3/10, 2/5] [-1/10, -1/10]
      [1/20, 1/20] = Except.ok 2 ∧
    ([(0 : ℚ) - 0] : List ℚ).length = 1 ∧
    ([(0 : ℚ)] : List ℚ).length = 1 :=
  ⟨(C9_amended_only_video_enforces_min_frames testSurface [3/10, 2/5]
      [-1/10, -1/10] [1/20, 1/20] 1).1 (by decide),
   (C9_amended_only_video_enforces_min_frames testSurface [3/10, 2/5]
      [-1/10, -1/10] [1/20, 1/20] 2).2.1 (by decide),
   (C9_amended_only_video_enforces_min_frames testSurface [3/10, 2/5]
      [-1/10, -1/10] [1/20, 1/20] 1).2.2.1 rateProbe
     initialConfig emptyPortfolio 10 [90, 110]
     (emptyPortfolio.plot_pnl_evolution_3d rateProbe initialConfig testSurface
       [3/10, 2/5] [-1/10, -1/10] [1/20, 1/20] 10 1 [90, 110]).1
     ((emptyPortfolio.plot_pnl_evolution_3d rateProbe initialConfig testSurface
       [3/10, 2/5] [-1/10, -1/10] [1/20, 1/20] 10 1 [90, 110]).2.toOption.getD [])
     rfl [(0 : ℚ) - 0] (List.mem_cons_self _ _),
   (C9_amended_only_video_enforces_min_frames testSurface [3/10, 2/5]
      [-1/10, -1/10] [1/20, 1/20] 1).2.2.2 rateProbe
     initialConfig emptyPortfolio 10 [90, 110] "delta"
     (emptyPortfolio.plot_greek_evolution_3d rateProbe initialConfig testSurface
       [3/10, 2/5] [-1/10, -1/10] [1/20, 1/20] 10 1 [90, 110] "delta").1
     ((emptyPortfolio.plot_greek_evolution_3d rateProbe initialConfig testSurface
       [3/10, 2/5] [-1/10, -1/10] [1/20, 1/20] 10 1 [90, 110] "delta").2.toOption.getD [])
     rfl [(0 : ℚ)] (List.mem_cons_self _ _)⟩
